import Mathlib

/-!
Shallow embedding of the fraud risk-scoring engine of the repository:
the scoring agent module `fraud-detection-agent.py`, the mirrored helper
module `fraud_detection_agent.py`, and the offline trainer
`train_fraud_model.py` (all under `backend/src/services/`).

Python floats are modelled as exact rationals (for the pure feature
pipeline) and as real numbers (for the scoring arithmetic, which involves
`math.exp`).  Fallible Python code is embedded in `Except`.
-/

namespace StacksFraud

/-- Dynamic (Python/JSON-style) values a transaction field may hold.
Floats are modelled as exact rationals. -/
inductive PyVal where
  | none
  | bool (b : Bool)
  | int (n : Int)
  | float (q : ℚ)
  | str (s : String)
deriving DecidableEq

/-- A transaction record: each named field is either absent or holds a
dynamic value, matching Python `dict.get` semantics for the keys the
extractor reads (`ts`, `amount`, `status`, `retry`, `memo`). -/
structure Tx where
  ts : Option PyVal := Option.none
  amount : Option PyVal := Option.none
  status : Option PyVal := Option.none
  retry : Option PyVal := Option.none
  memo : Option PyVal := Option.none

/-- Python truthiness of a value (`bool(x)`). -/
def pyTruthy : PyVal → Bool
  | PyVal.none => false
  | PyVal.bool b => b
  | PyVal.int n => decide (n ≠ 0)
  | PyVal.float q => decide (q ≠ 0)
  | PyVal.str s => decide (s ≠ "")

/-- The numeric value of a Python value when it is numeric
(`bool` counts as 0/1, as in Python). -/
def pyNum : PyVal → Option ℚ
  | PyVal.bool b => Option.some (if b then 1 else 0)
  | PyVal.int n => Option.some (n : ℚ)
  | PyVal.float q => Option.some q
  | _ => Option.none

/-- Python `==`: numeric kinds compare by value (`True == 1`,
`1 == 1.0`), strings compare as strings, `None == None`; every other
cross-kind comparison is false. -/
def pyEq (a b : PyVal) : Bool :=
  match pyNum a, pyNum b with
  | Option.some x, Option.some y => decide (x = y)
  | _, _ =>
    match a, b with
    | PyVal.str s, PyVal.str t => decide (s = t)
    | PyVal.none, PyVal.none => true
    | _, _ => false

/-- Python `str(x)`.  The rendering of a float is schematic
(`num/den`); the exact Python float repr is not modelled — no claim
depends on it, only on the fact that it never contains the status
keywords searched for by the extractor. -/
def pyStr : PyVal → String
  | PyVal.none => "None"
  | PyVal.bool b => if b then "True" else "False"
  | PyVal.int n => toString n
  | PyVal.float q => toString q.num ++ "/" ++ toString q.den
  | PyVal.str s => s

/-- Decimal value of a list of digit characters. -/
def natOfDigits (l : List Char) : ℕ :=
  l.foldl (fun a c => a * 10 + (c.toNat - 48)) 0

/-- Best-effort model of Python `float(str)`: optional surrounding
whitespace, optional sign, decimal digits with an optional fractional
part.  Exponent, `inf` and `nan` literal forms are not modelled; no
claim depends on them. -/
def pyFloatOfString (s : String) : Option ℚ :=
  let cs := s.trim.toList
  let p : ℚ × List Char :=
    match cs with
    | '+' :: r => (1, r)
    | '-' :: r => (-1, r)
    | r => (1, r)
  let ip := p.2.takeWhile Char.isDigit
  let rest := p.2.dropWhile Char.isDigit
  match rest with
  | [] => if ip.isEmpty then Option.none else Option.some (p.1 * natOfDigits ip)
  | '.' :: r2 =>
    let fp := r2.takeWhile Char.isDigit
    let rest2 := r2.dropWhile Char.isDigit
    if rest2.isEmpty && !(ip.isEmpty && fp.isEmpty) then
      Option.some (p.1 * ((natOfDigits ip : ℚ) + (natOfDigits fp : ℚ) / (10 : ℚ) ^ fp.length))
    else Option.none
  | _ => Option.none

/-- `_safe_num(x)` from both scoring modules: `float(x)`, with any
exception mapped to `0.0`.  `float(None)` and `float` of an unparsable
string raise in Python, hence yield 0 here. -/
def pySafeNum : PyVal → ℚ
  | PyVal.none => 0
  | PyVal.bool b => if b then 1 else 0
  | PyVal.int n => (n : ℚ)
  | PyVal.float q => q
  | PyVal.str s => (pyFloatOfString s).getD 0

/-- `tx.get("ts") or int(time.time() * 1000)`: the stored `ts` value if
present and truthy, else the current wall-clock milliseconds `now`. -/
def tsOrNow (tx : Tx) (now : Int) : PyVal :=
  match tx.ts with
  | Option.none => PyVal.int now
  | Option.some v => if pyTruthy v then v else PyVal.int now

/-- `int(ts // 1000)` on a dynamic value: defined for numeric kinds
(`bool` divides as 0/1), a `TypeError` for `str` and `None`. -/
def pyMillisToSec : PyVal → Except Unit Int
  | PyVal.bool b => Except.ok (Int.fdiv (if b then 1 else 0) 1000)
  | PyVal.int n => Except.ok (Int.fdiv n 1000)
  | PyVal.float q => Except.ok (Rat.floor (q / 1000))
  | _ => Except.error ()

/-- `hour = (int(ts // 1000) % 86400) // 3600` (Python `%` with a
positive modulus is `Int.emod`, `//` is floor division). -/
def hourOf (v : PyVal) : Except Unit Int :=
  Except.map (fun s => Int.fdiv (s % 86400) 3600) (pyMillisToSec v)

/-- ASCII lowercase of one character (`str.lower()` restricted to the
ASCII range; the status keywords searched for are ASCII). -/
def lowerChar (c : Char) : Char :=
  if 65 ≤ c.toNat && c.toNat ≤ 90 then Char.ofNat (c.toNat + 32) else c

/-- `s.lower()` (ASCII model). -/
def pyLower (s : String) : String := String.mk (s.toList.map lowerChar)

/-- `needle in hay` on strings (substring containment). -/
def strContains (hay needle : String) : Bool :=
  hay.toList.tails.any (fun t => needle.toList.isPrefixOf t)

/-- `float(len(tx.get("memo") or ""))`: the falsy-or-missing memo is
replaced by `""`; `len` of a truthy non-string raises `TypeError`. -/
def memoLenOf (tx : Tx) : Except Unit ℚ :=
  let v : PyVal :=
    match tx.memo with
    | Option.none => PyVal.str ""
    | Option.some m => if pyTruthy m then m else PyVal.str ""
  match v with
  | PyVal.str s => Except.ok (s.length : ℚ)
  | _ => Except.error ()

/-- `fraud-detection-agent.py` line 70:
`is_retry = 1.0 if tx.get("retry", False) else 0.0` — plain truthiness. -/
def isRetryH (tx : Tx) : ℚ :=
  if pyTruthy (tx.retry.getD (PyVal.bool false)) then 1 else 0

/-- `fraud_detection_agent.py` line 35:
`is_retry = 1.0 if (tx.get("retry", False) in (True, 1, "1", "true", "True")) else 0.0`
— tuple membership under Python `==`. -/
def isRetryU (tx : Tx) : ℚ :=
  let v := tx.retry.getD (PyVal.bool false)
  if pyEq v (PyVal.bool true) || pyEq v (PyVal.int 1) || pyEq v (PyVal.str "1") ||
      pyEq v (PyVal.str "true") || pyEq v (PyVal.str "True") then 1 else 0

/-- The fixed-schema numeric feature vector returned by
`_extract_features` (a Python dict with exactly these keys). -/
structure FeatureVec where
  amount : ℚ
  hour : ℚ
  is_retry : ℚ
  memo_len : ℚ
  st_success : ℚ
  st_failed : ℚ
  st_queued : ℚ
deriving DecidableEq

/-- `_extract_features` of `fraud-detection-agent.py` (lines 64-84).
`now` is the current wall-clock time in milliseconds, used when `ts`
is missing or falsy.  The two fallible steps are the `//` on `ts`
(line 67) and `len` on `memo` (line 71); amount coercion is caught by
`_safe_num` and `str(...)` never raises. -/
def extractFeaturesH (tx : Tx) (now : Int) : Except Unit FeatureVec := do
  let h ← hourOf (tsOrNow tx now)
  let amount := pySafeNum (tx.amount.getD (PyVal.int 0))
  let status := pyLower (pyStr (tx.status.getD (PyVal.str "")))
  let r := isRetryH tx
  let ml ← memoLenOf tx
  Except.ok {
    amount := amount
    hour := (h : ℚ)
    is_retry := r
    memo_len := ml
    st_success := if strContains status "success" then 1 else 0
    st_failed := if strContains status "fail" then 1 else 0
    st_queued := if strContains status "queue" then 1 else 0 }

/-- `_extract_features` of `fraud_detection_agent.py` (lines 28-48);
identical line-by-line except for the `is_retry` rule. -/
def extractFeaturesU (tx : Tx) (now : Int) : Except Unit FeatureVec := do
  let h ← hourOf (tsOrNow tx now)
  let amount := pySafeNum (tx.amount.getD (PyVal.int 0))
  let status := pyLower (pyStr (tx.status.getD (PyVal.str "")))
  let r := isRetryU tx
  let ml ← memoLenOf tx
  Except.ok {
    amount := amount
    hour := (h : ℚ)
    is_retry := r
    memo_len := ml
    st_success := if strContains status "success" then 1 else 0
    st_failed := if strContains status "fail" then 1 else 0
    st_queued := if strContains status "queue" then 1 else 0 }

/-- The `ts` field is coercible by line 67 (`int(ts // 1000)`): absent,
falsy (replaced by the wall clock) or numeric.  A truthy non-numeric
`ts` (e.g. a non-empty string) makes the extractor raise `TypeError`. -/
def tsOk (tx : Tx) : Bool :=
  match tx.ts with
  | Option.none => true
  | Option.some v => !pyTruthy v || (pyNum v).isSome

/-- The `memo` field is coercible by line 71 (`len(tx.get("memo") or "")`):
absent, falsy (replaced by `""`) or a string.  A truthy non-string memo
makes the extractor raise `TypeError`. -/
def memoOk (tx : Tx) : Bool :=
  match tx.memo with
  | Option.none => true
  | Option.some v =>
    !pyTruthy v ||
      (match v with
        | PyVal.str _ => true
        | _ => false)

/-- The keys of the feature dict, in the literal order of the `return`
statement of `_extract_features` (Python dicts preserve insertion
order). -/
def featureKeys : List String :=
  ["amount", "hour", "is_retry", "memo_len", "st_success", "st_failed", "st_queued"]

/-- Lexicographic `<` on code-point sequences: Python (and Lean) string
comparison. -/
def lexLt : List Char → List Char → Bool
  | [], [] => false
  | [], _ :: _ => true
  | _ :: _, [] => false
  | a :: as, b :: bs =>
    if a.toNat < b.toNat then true
    else if b.toNat < a.toNat then false
    else lexLt as bs

/-- Insert a string into an ascending list (lexicographic `<` on code
points, as Python string comparison). -/
def insertStr (x : String) : List String → List String
  | [] => [x]
  | y :: ys => if lexLt x.toList y.toList then x :: y :: ys else y :: insertStr x ys

/-- Ascending insertion sort on strings: the model of Python
`sorted(...)` on a list of distinct keys. -/
def sortStrs : List String → List String
  | [] => []
  | x :: xs => insertStr x (sortStrs xs)

/-- The column order both the scorer (`features`, line 118:
`cols = sorted(feats.keys())`) and the trainer (`featurize`, line 44:
`cols = sorted(feats[0].keys())`) derive from the feature dict. -/
def featureCols : List String := sortStrs featureKeys

/-- Dict lookup `fi[c]` on a feature dict.  The default 0 branch is
unreachable for the keys actually used (`featureCols`). -/
def featGet (f : FeatureVec) : String → ℚ
  | "amount" => f.amount
  | "hour" => f.hour
  | "is_retry" => f.is_retry
  | "memo_len" => f.memo_len
  | "st_success" => f.st_success
  | "st_failed" => f.st_failed
  | "st_queued" => f.st_queued
  | _ => 0

/-- The `FraudModel` dataclass as the scorer uses it.  The sklearn
estimators are embedded by their observable behaviour on a feature row:
`scaler` is the optional `transform`; `clfProba` is
`predict_proba(X)[0, 1]` — outer `none` when the object has no
`predict_proba` attribute, inner `none` when the call raises (e.g. an
unfitted estimator); `iso` is `score_samples(X)[0]` — outer `none` when
`iso is None`, inner `none` when the call raises. -/
structure FraudModelM where
  scaler : Option (List ℚ → List ℚ)
  clfProba : Option (List ℚ → Option ℝ)
  iso : Option (List ℚ → Option ℝ)

/-- The default model built by `FraudModel.load` on any load failure
(line 101): no scaler, an *unfitted* `LogisticRegression` (its
`predict_proba` exists but raises `NotFittedError`) and an *unfitted*
`IsolationForest` (its `score_samples` raises `NotFittedError`). -/
noncomputable def defaultModel : FraudModelM :=
  { scaler := Option.none
    clfProba := Option.some (fun _ => Option.none)
    iso := Option.some (fun _ => Option.none) }

/-- `FraudModel.load` (lines 93-101): the deserialized artifact when
`joblib.load` + `FraudModel(**obj)` succeed (`Option.some`), else the
default model.  No compatibility validation of any kind is performed on
a successfully deserialized artifact. -/
noncomputable def FraudModelM.load (obj : Option FraudModelM) : FraudModelM :=
  match obj with
  | Option.some m => m
  | Option.none => defaultModel

/-- The keys of the dict passed to `joblib.dump` by `FraudModel.save`
(line 105 of `fraud-detection-agent.py`, line 71 of
`fraud_detection_agent.py`). -/
def saveKeys : List String := ["scaler", "clf", "iso"]

/-- `FraudDetectionAgent.features` (lines 116-122): extract, order the
columns, apply the scaler when present. -/
noncomputable def FraudModelM.featuresX (m : FraudModelM) (tx : Tx) (now : Int) :
    Except Unit (List ℚ) := do
  let f ← extractFeaturesH tx now
  let X := featureCols.map (featGet f)
  Except.ok (match m.scaler with
    | Option.some g => g X
    | Option.none => X)

/-- `min(max(p, 0.0), 1.0)` — the final clamp of `score`. -/
noncomputable def clamp01 (x : ℝ) : ℝ := min (max x 0) 1

/-- The logistic squash `1.0 / (1.0 + math.exp(-s))` (line 138). -/
noncomputable def logisticSquash (s : ℝ) : ℝ := 1 / (1 + Real.exp (-s))

/-- The classifier probability with its default: `p = 0.5` unless
`predict_proba` exists and succeeds (lines 127-132). -/
noncomputable def FraudModelM.clfP (m : FraudModelM) (X : List ℚ) : ℝ :=
  match m.clfProba with
  | Option.some f => (f X).getD 0.5
  | Option.none => 0.5

/-- The numeric part of `FraudDetectionAgent.score` (lines 124-142) on
an already-extracted (and scaled) row `X`: classifier probability with
default 0.5; when the isolation forest is present and its call
succeeds, negate its `score_samples` output (sklearn: higher means more
normal), squash, and blend `0.5 * p + 0.5 * s`; a failing call leaves
`p` unchanged (`except: pass`); finally clamp to `[0, 1]`. -/
noncomputable def FraudModelM.scoreX (m : FraudModelM) (X : List ℚ) : ℝ :=
  clamp01 (match m.iso with
    | Option.some g =>
      match g X with
      | Option.some raw => 0.5 * m.clfP X + 0.5 * logisticSquash (-raw)
      | Option.none => m.clfP X
    | Option.none => m.clfP X)

/-- `FraudDetectionAgent.score` on a raw transaction: feature
extraction (which can raise) followed by the numeric scoring path. -/
noncomputable def FraudModelM.score (m : FraudModelM) (tx : Tx) (now : Int) :
    Except Unit ℝ :=
  Except.map m.scoreX (m.featuresX tx now)

/-- `RISK_THRESHOLD`: `float(os.getenv("RISK_THRESHOLD", "0.7"))`. -/
noncomputable def defaultThreshold : ℝ := 0.7

open Classical in
/-- `FraudDetectionAgent.classify` (lines 144-151). -/
noncomputable def classify (threshold p : ℝ) : String :=
  if p ≥ max threshold 0.9 then "critical"
  else if p ≥ threshold then "high"
  else if p ≥ 0.4 then "medium"
  else "low"

/-- `FraudDetectionAgent.process_tx` (lines 168-174): the returned
`{"risk": p, "level": level}` dict as a pair.  The alert call on
high/critical severity is an external side effect with no influence on
the returned value. -/
noncomputable def processTx (m : FraudModelM) (threshold : ℝ) (tx : Tx) (now : Int) :
    Except Unit (ℝ × String) :=
  Except.map (fun p => (p, classify threshold p)) (m.score tx now)

/-- A row of the training CSV as the trainer reads it: the transaction
fields (handed to `_extract_features` via `row.to_dict()`) plus the
`label` column. -/
structure Row where
  tx : Tx := {}
  label : Option PyVal := Option.none

/-- Model of Python `int(x)` as used on labels (`int(row.get("label", 0))`,
line 43 of the trainer): floats truncate toward zero, integer strings
parse, everything else raises. -/
def pyIntCoerce : PyVal → Except Unit Int
  | PyVal.bool b => Except.ok (if b then 1 else 0)
  | PyVal.int n => Except.ok n
  | PyVal.float q => Except.ok (if 0 ≤ q then Rat.floor q else -Rat.floor (-q))
  | PyVal.str s =>
    let cs := s.trim.toList
    let p : Int × List Char :=
      match cs with
      | '+' :: r => (1, r)
      | '-' :: r => (-1, r)
      | r => (1, r)
    if !p.2.isEmpty && p.2.all Char.isDigit then
      Except.ok (p.1 * natOfDigits p.2)
    else Except.error ()
  | PyVal.none => Except.error ()

/-- `featurize` of `train_fraud_model.py` (lines 37-47): run the
(underscored module's) extractor over every row, coerce the labels,
take `cols = sorted(feats[0].keys()) if feats else []` — the keys of
every feature dict are `featureKeys` — and lay the matrix out in that
column order.  Exceptions from the extractor or `int(...)` propagate. -/
def featurize (rows : List Row) (now : Int) :
    Except Unit (List (List ℚ) × List Int × List String) :=
  match rows.mapM (fun r => extractFeaturesU r.tx now) with
  | Except.error e => Except.error e
  | Except.ok feats =>
    match rows.mapM (fun r => pyIntCoerce (r.label.getD (PyVal.int 0))) with
    | Except.error e => Except.error e
    | Except.ok labels =>
      let cols := if feats.isEmpty then [] else sortStrs featureKeys
      Except.ok (feats.map (fun f => cols.map (featGet f)), labels, cols)

/-- `main` of `train_fraud_model.py` up to its empty-dataset guard
(lines 78-81): featurize, then `if len(X) == 0: raise SystemExit("No data
rows")`.  The remaining steps (split / fit / evaluate / save) are
external sklearn calls on a non-empty dataset, modelled separately
(`evaluateAuc`, `saveKeys`). -/
def trainMainGuard (rows : List Row) (now : Int) :
    Except String (List (List ℚ) × List Int × List String) :=
  match featurize rows now with
  | Except.error _ => Except.error "featurize raised"
  | Except.ok out =>
    if out.1.length = 0 then Except.error "No data rows" else Except.ok out

/-- `len(np.unique(y))`: the number of distinct labels. -/
def uniqueCount (y : List Int) : ℕ := y.dedup.length

/-- The AUC computation of `evaluate` (line 68):
`roc_auc_score(y, proba) if len(np.unique(y)) > 1 else float("nan")`.
`rocAuc` stands for the external sklearn metric; the undefined result
`float("nan")` is modelled as `Option.none`. -/
def evaluateAuc (rocAuc : List Int → List ℚ → ℚ) (y : List Int) (proba : List ℚ) :
    Option ℚ :=
  if 1 < uniqueCount y then Option.some (rocAuc y proba) else Option.none

/-- A transaction whose `ts` field is explicitly present but falsy
(`ts = 0`, the epoch). -/
def txTsZero : Tx := { ts := Option.some (PyVal.int 0) }

/-- A transaction whose retry flag is the string `"false"` (truthy in
Python, yet not a member of the underscored module's accepted tuple);
`ts` is pinned so extraction is wall-clock independent. -/
def txRetryFalse : Tx :=
  { ts := Option.some (PyVal.int 1), retry := Option.some (PyVal.str "false") }

/-- A concrete model for witnesses: no scaler, no `predict_proba`
attribute, an anomaly detector whose raw score is 0 on every row. -/
noncomputable def m0 : FraudModelM :=
  { scaler := Option.none
    clfProba := Option.none
    iso := Option.some (fun _ => Option.some 0) }

/-- A one-row dataset (all transaction fields missing, label missing). -/
def rows1 : List Row := [{}]

/-- A transaction whose `ts` is a truthy non-numeric value. -/
def txBadTs : Tx := { ts := Option.some (PyVal.str "x") }

/-- A transaction whose `memo` is a truthy non-string value (`ts`
pinned so the failure is deterministic). -/
def txBadMemo : Tx :=
  { ts := Option.some (PyVal.int 1), memo := Option.some (PyVal.int 7) }

/-! ## Theorems -/

/-- Claim C10: a `ts` field that is present but falsy (for example
`ts = 0`, the epoch) is treated exactly like an absent one — the hour
is computed from the current wall-clock time `now`, so the extracted
features are time-dependent despite the explicit timestamp: at
midnight (`now = 0`) the hour is 0, at noon (`now = 43200000` ms) it
is 12. -/
theorem ts_falsy_uses_wallclock :
    (∀ now : Int, extractFeaturesU txTsZero now = extractFeaturesU ({} : Tx) now) ∧
    (∀ now : Int, extractFeaturesH txTsZero now = extractFeaturesH ({} : Tx) now) ∧
    (extractFeaturesU txTsZero 0).toOption.map FeatureVec.hour = Option.some 0 ∧
    (extractFeaturesU txTsZero 43200000).toOption.map FeatureVec.hour = Option.some 12 :=
  ⟨fun _ => rfl, fun _ => rfl, rfl, by decide⟩

/-- Claim C7, counterexample: the actually produced column order is NOT
`amount, hour, is_retry, memo_len, st_success, st_failed, st_queued`
(lexicographic sorting places `st_failed` and `st_queued` before
`st_success`). -/
theorem feature_order_cex :
    featureCols ≠
      ["amount", "hour", "is_retry", "memo_len", "st_success", "st_failed", "st_queued"] := by
  decide

/-- Claim C7 (amended): every feature matrix is laid out in the fixed,
sorted key order `amount, hour, is_retry, memo_len, st_failed,
st_queued, st_success`; the trainer's `featurize` derives this same
order (and `[]` only for an empty dataset), and the scorer's `features`
step maps a feature dict to a row in exactly this order. -/
theorem feature_order_canonical :
    featureCols =
      ["amount", "hour", "is_retry", "memo_len", "st_failed", "st_queued", "st_success"] ∧
    (∀ rows now out, featurize rows now = Except.ok out →
      out.2.2 = if out.1.isEmpty then [] else featureCols) ∧
    (∀ f : FeatureVec, featureCols.map (featGet f) =
      [f.amount, f.hour, f.is_retry, f.memo_len, f.st_failed, f.st_queued, f.st_success]) := by
  refine ⟨by decide, ?_, fun f => rfl⟩
  intro rows now out hout
  unfold featurize at hout
  cases hfe : rows.mapM (fun r => extractFeaturesU r.tx now) with
  | error e => rw [hfe] at hout; cases hout
  | ok feats =>
    rw [hfe] at hout
    cases hlb : rows.mapM (fun r => pyIntCoerce (r.label.getD (PyVal.int 0))) with
    | error e => rw [hlb] at hout; cases hout
    | ok labels =>
      rw [hlb] at hout
      cases hout
      cases feats <;> rfl

/-- Witness for C7: on the concrete one-row dataset `rows1` the
trainer's column list equals the canonical order. -/
theorem feature_order_canonical_w :
    (([[(0 : ℚ), 0, 0, 0, 0, 0, 0]], [(0 : Int)], featureCols) :
        List (List ℚ) × List Int × List String).2.2 =
      if ([[(0 : ℚ), 0, 0, 0, 0, 0, 0]] : List (List ℚ)).isEmpty then [] else featureCols :=
  feature_order_canonical.2.1 rows1 0 _ rfl

/-- Claim C8: the trainer/scorer artifact persisted by
`FraudModel.save` contains exactly the keys `scaler`, `clf`, `iso` —
no feature column order is embedded — and `FraudModel.load` accepts
any successfully deserialized artifact verbatim, performing no
feature-ordering validation whatsoever. -/
theorem artifact_save_no_order :
    saveKeys = ["scaler", "clf", "iso"] ∧
    "featureOrder" ∉ saveKeys ∧
    (∀ m, FraudModelM.load (Option.some m) = m) :=
  ⟨rfl, by decide, fun _ => rfl⟩

/-- Claim C9: the training job fails loudly (`SystemExit "No data
rows"`) on an empty dataset, and the AUC is reported as undefined
(`nan`, modelled `Option.none`) instead of erroring when the labels
contain at most one distinct class, while two or more classes yield the
real metric. -/
theorem trainer_fail_loud_auc (rows : List Row) (now : Int)
    (f : List Int → List ℚ → ℚ) (y : List Int) (proba : List ℚ) :
    (rows = [] → trainMainGuard rows now = Except.error "No data rows") ∧
    (uniqueCount y ≤ 1 → evaluateAuc f y proba = Option.none) ∧
    (1 < uniqueCount y → evaluateAuc f y proba = Option.some (f y proba)) := by
  refine ⟨?_, ?_, ?_⟩
  · intro h; subst h; rfl
  · intro h; unfold evaluateAuc; rw [if_neg (by omega)]
  · intro h; unfold evaluateAuc; rw [if_pos h]

/-- Witness for C9: the empty dataset errs with "No data rows"; the
single-class label vector `[1, 1]` gives an undefined AUC; the
two-class vector `[0, 1]` gives a defined one. -/
theorem trainer_fail_loud_auc_w :
    trainMainGuard [] 0 = Except.error "No data rows" ∧
    evaluateAuc (fun _ _ => 0) [1, 1] [] = Option.none ∧
    evaluateAuc (fun _ _ => 0) [0, 1] [] = Option.some 0 :=
  ⟨(trainer_fail_loud_auc [] 0 (fun _ _ => 0) [1, 1] []).1 rfl,
   (trainer_fail_loud_auc [] 0 (fun _ _ => 0) [1, 1] []).2.1 (by decide),
   (trainer_fail_loud_auc [] 0 (fun _ _ => 0) [0, 1] []).2.2 (by decide)⟩

/-- Claim C5, counterexample: on the record `{ts: 1, retry: "false"}`
the two mirrored extractors disagree — the hyphenated module extracts
`is_retry = 1` (any truthy value), the underscored module `is_retry = 0`
(`"false"` is not in its accepted tuple) — so the feature mappings are
not the same. -/
theorem mirrored_modules_cex :
    (extractFeaturesH txRetryFalse 0).toOption.map FeatureVec.is_retry = Option.some 1 ∧
    (extractFeaturesU txRetryFalse 0).toOption.map FeatureVec.is_retry = Option.some 0 ∧
    extractFeaturesH txRetryFalse 0 ≠ extractFeaturesU txRetryFalse 0 := by
  refine ⟨rfl, rfl, fun hEq => ?_⟩
  have h1 : Option.some (1 : ℚ) = Option.some (0 : ℚ) := by
    calc Option.some (1 : ℚ)
        = (extractFeaturesH txRetryFalse 0).toOption.map FeatureVec.is_retry := by rfl
      _ = (extractFeaturesU txRetryFalse 0).toOption.map FeatureVec.is_retry := by rw [hEq]
      _ = Option.some (0 : ℚ) := by rfl
  exact one_ne_zero (Option.some.inj h1)

/-- Claim C5 (amended): the two mirrored extractors agree on every
field and on every failure mode except `is_retry`: for every record,
the hyphenated module's result is the underscored module's result with
`is_retry` replaced by the plain-truthiness rule. -/
theorem mirrored_modules (tx : Tx) (now : Int) :
    extractFeaturesH tx now =
      Except.map (fun f => { f with is_retry := isRetryH tx }) (extractFeaturesU tx now) := by
  unfold extractFeaturesH extractFeaturesU
  cases hourOf (tsOrNow tx now) <;> cases memoLenOf tx <;> rfl

/-- Claim C6, counterexample: the underscored module maps
`retry = "TRUE"` to `is_retry = 0` although `"TRUE"` equals `"true"`
case-insensitively (its tuple membership only accepts the exact
spellings `"1"`, `"true"`, `"True"`), and the hyphenated module maps
the truthy string `"no"` to `is_retry = 1` although it is none of the
accepted values. -/
theorem is_retry_cex :
    isRetryU { retry := Option.some (PyVal.str "TRUE") } = 0 ∧
    isRetryH { retry := Option.some (PyVal.str "no") } = 1 :=
  ⟨rfl, rfl⟩

/-- Claim C6 (amended): in `fraud_detection_agent.py`, `is_retry` is 1
exactly when the retry value compares `==` to `True` or `1` (so the
numbers 1 and 1.0 and boolean true) or is one of the exact strings
`"1"`, `"true"`, `"True"` — not any other casing; in
`fraud-detection-agent.py`, `is_retry` is 1 exactly when the retry
value is truthy; a missing retry field gives 0 in both. -/
theorem is_retry_semantics (v : PyVal) :
    (isRetryU { retry := Option.some v } = 1 ↔
      (pyNum v = Option.some 1 ∨ v = PyVal.str "1" ∨ v = PyVal.str "true" ∨
        v = PyVal.str "True")) ∧
    (isRetryH { retry := Option.some v } = 1 ↔ pyTruthy v = true) ∧
    isRetryU ({} : Tx) = 0 ∧ isRetryH ({} : Tx) = 0 := by
  refine ⟨?_, ?_, rfl, rfl⟩
  · cases v with
    | none => simp [isRetryU, pyEq, pyNum]
    | bool b => cases b <;> simp [isRetryU, pyEq, pyNum]
    | int n =>
      by_cases h : (n : ℚ) = 1 <;>
        simp [isRetryU, pyEq, pyNum, h]
    | float q =>
      by_cases h : q = 1 <;>
        simp [isRetryU, pyEq, pyNum, h]
    | str s =>
      by_cases h1 : s = "1" <;> by_cases h2 : s = "true" <;> by_cases h3 : s = "True" <;>
        simp [isRetryU, pyEq, pyNum, h1, h2, h3]
  · unfold isRetryH
    cases h : pyTruthy v <;> simp [h]

/-- A coercible `ts` (absent, falsy or numeric) always yields an hour. -/
theorem hourOf_tsOk (tx : Tx) (now : Int) (hts : tsOk tx = true) :
    ∃ h, hourOf (tsOrNow tx now) = Except.ok h := by
  unfold tsOk at hts
  unfold tsOrNow
  cases htx : tx.ts with
  | none => exact ⟨_, rfl⟩
  | some v =>
    rw [htx] at hts
    cases v with
    | none => exact ⟨_, rfl⟩
    | bool b => cases b <;> exact ⟨_, rfl⟩
    | int n =>
      cases h : pyTruthy (PyVal.int n) <;> simp only [h, if_true, if_false] <;> exact ⟨_, rfl⟩
    | float q =>
      cases h : pyTruthy (PyVal.float q) <;> simp only [h, if_true, if_false] <;> exact ⟨_, rfl⟩
    | str s =>
      have hts2 : (!pyTruthy (PyVal.str s) || (pyNum (PyVal.str s)).isSome) = true := hts
      have hf : pyTruthy (PyVal.str s) = false := by
        cases h : pyTruthy (PyVal.str s)
        · rfl
        · rw [h] at hts2; simp [pyNum] at hts2
      simp only [hf, if_false]
      exact ⟨_, rfl⟩

/-- A coercible `memo` (absent, falsy or a string) always yields a
length. -/
theorem memoLenOf_memoOk (tx : Tx) (hm : memoOk tx = true) :
    ∃ q, memoLenOf tx = Except.ok q := by
  unfold memoOk at hm
  unfold memoLenOf
  cases hmx : tx.memo with
  | none => exact ⟨_, rfl⟩
  | some v =>
    rw [hmx] at hm
    cases v with
    | none => exact ⟨_, rfl⟩
    | bool b =>
      cases b
      · exact ⟨_, rfl⟩
      · exact absurd hm (by decide)
    | int n =>
      have hm2 : (!pyTruthy (PyVal.int n) || false) = true := hm
      cases h : pyTruthy (PyVal.int n)
      · simp only [h, if_false]; exact ⟨_, rfl⟩
      · rw [h] at hm2; simp at hm2
    | float q =>
      have hm2 : (!pyTruthy (PyVal.float q) || false) = true := hm
      cases h : pyTruthy (PyVal.float q)
      · simp only [h, if_false]; exact ⟨_, rfl⟩
      · rw [h] at hm2; simp at hm2
    | str s =>
      cases h : pyTruthy (PyVal.str s) <;> simp only [h, if_true, if_false] <;> exact ⟨_, rfl⟩

/-- Claim C2, counterexample: the extractor is NOT total.  A truthy
non-numeric `ts` (here the string `"x"`) raises a `TypeError` at
`ts // 1000`, and a truthy non-string `memo` (here the integer 7)
raises a `TypeError` at `len(...)` — in both mirrored modules. -/
theorem extractor_raises_cex :
    extractFeaturesH txBadTs 0 = Except.error () ∧
    extractFeaturesU txBadTs 0 = Except.error () ∧
    extractFeaturesH txBadMemo 0 = Except.error () ∧
    extractFeaturesU txBadMemo 0 = Except.error () :=
  ⟨rfl, rfl, rfl, rfl⟩

/-- Claim C2 (amended): the extractor never raises provided the `ts`
field is absent, falsy or numeric and the `memo` field is absent,
falsy or a string (any `amount` that cannot be coerced defaults to 0
via `_safe_num`, and any `status`/`retry` value is tolerated); in
particular extraction from the empty record `{}` succeeds with
`amount = 0`, `is_retry = 0`, `memo_len = 0` and all status flags 0. -/
theorem extractor_total_on_coercible (tx : Tx) (now : Int)
    (hts : tsOk tx = true) (hm : memoOk tx = true) :
    (extractFeaturesH tx now).isOk = true ∧ (extractFeaturesU tx now).isOk = true ∧
    (∃ f, extractFeaturesH ({} : Tx) now = Except.ok f ∧
      f.amount = 0 ∧ f.is_retry = 0 ∧ f.memo_len = 0 ∧
      f.st_success = 0 ∧ f.st_failed = 0 ∧ f.st_queued = 0) := by
  obtain ⟨h, hh⟩ := hourOf_tsOk tx now hts
  obtain ⟨q, hq⟩ := memoLenOf_memoOk tx hm
  refine ⟨?_, ?_, ?_⟩
  · unfold extractFeaturesH; rw [hh, hq]; rfl
  · unfold extractFeaturesU; rw [hh, hq]; rfl
  · exact ⟨_, rfl, rfl, rfl, rfl, rfl, rfl, rfl⟩

/-- Witness for C2: the empty record at wall-clock 5 ms extracts
successfully in both modules. -/
theorem extractor_total_on_coercible_w :
    (extractFeaturesH ({} : Tx) 5).isOk = true ∧ (extractFeaturesU ({} : Tx) 5).isOk = true :=
  ⟨(extractor_total_on_coercible {} 5 rfl rfl).1,
   (extractor_total_on_coercible {} 5 rfl rfl).2.1⟩

/-- The clamp keeps every value at least 0. -/
theorem clamp01_nonneg (x : ℝ) : 0 ≤ clamp01 x :=
  le_min (le_max_right x 0) zero_le_one

/-- The clamp keeps every value at most 1. -/
theorem clamp01_le_one (x : ℝ) : clamp01 x ≤ 1 :=
  min_le_right _ _

/-- The clamp fixes values already in the unit interval. -/
theorem clamp01_of_mem {x : ℝ} (h0 : 0 ≤ x) (h1 : x ≤ 1) : clamp01 x = x := by
  unfold clamp01
  rw [max_eq_left h0, min_eq_left h1]

/-- The logistic squash lands strictly inside (0, 1). -/
theorem logisticSquash_mem (s : ℝ) : 0 < logisticSquash s ∧ logisticSquash s < 1 := by
  unfold logisticSquash
  constructor
  · positivity
  · rw [div_lt_one (by positivity)]
    linarith [Real.exp_pos (-s)]

/-- Claim C1: the risk returned by `score` always lies in `[0, 1]`; when
the anomaly detector is present and its call succeeds on the row, the
result is the clamp of the blend `0.5 * p + 0.5 * s` where `s` is the
logistic squash of the negated raw `score_samples` value (so that higher
squashed values mean more anomalous); with no detector the result is the
clamp of `p`; `p` defaults to 0.5 whenever the classifier cannot produce
a probability; the squash is antitone in the raw sklearn score (lower
`score_samples` = more anomalous = larger `s`) and stays strictly inside
`(0, 1)`; and any risk actually returned for a transaction is in
`[0, 1]`. -/
theorem score_range_and_blend (m : FraudModelM) (X : List ℚ) (tx : Tx) (now : Int) :
    (0 ≤ m.scoreX X ∧ m.scoreX X ≤ 1) ∧
    (∀ g raw, m.iso = Option.some g → g X = Option.some raw →
      m.scoreX X = clamp01 (0.5 * m.clfP X + 0.5 * logisticSquash (-raw))) ∧
    (m.iso = Option.none → m.scoreX X = clamp01 (m.clfP X)) ∧
    (m.clfProba = Option.none → m.clfP X = 0.5) ∧
    (∀ f, m.clfProba = Option.some f → f X = Option.none → m.clfP X = 0.5) ∧
    (∀ r₁ r₂ : ℝ, r₁ ≤ r₂ → logisticSquash (-r₂) ≤ logisticSquash (-r₁)) ∧
    (∀ s : ℝ, 0 < logisticSquash s ∧ logisticSquash s < 1) ∧
    (∀ r : ℝ, m.score tx now = Except.ok r → 0 ≤ r ∧ r ≤ 1) := by
  have hrange : ∀ Y : List ℚ, 0 ≤ m.scoreX Y ∧ m.scoreX Y ≤ 1 := fun Y =>
    ⟨clamp01_nonneg _, clamp01_le_one _⟩
  refine ⟨hrange X, ?_, ?_, ?_, ?_, ?_, logisticSquash_mem, ?_⟩
  · intro g raw hg hraw
    unfold FraudModelM.scoreX
    simp only [hg, hraw]
  · intro hnone
    unfold FraudModelM.scoreX
    simp only [hnone]
  · intro hnone
    unfold FraudModelM.clfP
    simp only [hnone]
  · intro f hf hfx
    unfold FraudModelM.clfP
    simp only [hf, hfx, Option.getD]
  · intro r₁ r₂ h
    unfold logisticSquash
    have he : Real.exp (-(-r₁)) ≤ Real.exp (-(-r₂)) := Real.exp_le_exp.mpr (by linarith)
    have hp : (0 : ℝ) < 1 + Real.exp (-(-r₁)) := by positivity
    exact one_div_le_one_div_of_le hp (by linarith)
  · intro r hr
    unfold FraudModelM.score at hr
    cases hfx : m.featuresX tx now with
    | error e => rw [hfx] at hr; cases hr
    | ok Y =>
      rw [hfx] at hr
      cases hr
      exact hrange Y

/-- Witness for C1: on the concrete model `m0` (no `predict_proba`,
anomaly raw score 0) and the empty row, the score is the clamped blend
of the default probability 0.5 with the squash of 0, and it is in
`[0, 1]`. -/
theorem score_range_and_blend_w :
    m0.scoreX [] = clamp01 (0.5 * 0.5 + 0.5 * logisticSquash 0) ∧
    0 ≤ m0.scoreX [] ∧ m0.scoreX [] ≤ 1 := by
  have h := score_range_and_blend m0 [] {} 0
  refine ⟨?_, h.1.1, h.1.2⟩
  have h2 := h.2.1 (fun _ => Option.some 0) 0 rfl rfl
  have h3 := h.2.2.2.1 rfl
  rw [h2, h3, neg_zero]

/-- Band characterization of `classify`: each severity holds exactly on
its half-open band, bands taken in order. -/
theorem classify_iff (t p : ℝ) :
    (classify t p = "critical" ↔ p ≥ max t 0.9) ∧
    (classify t p = "high" ↔ ¬p ≥ max t 0.9 ∧ p ≥ t) ∧
    (classify t p = "medium" ↔ ¬p ≥ max t 0.9 ∧ ¬p ≥ t ∧ p ≥ 0.4) ∧
    (classify t p = "low" ↔ ¬p ≥ max t 0.9 ∧ ¬p ≥ t ∧ ¬p ≥ 0.4) := by
  unfold classify
  by_cases h1 : p ≥ max t 0.9
  · simp [h1]
  · by_cases h2 : p ≥ t
    · simp [h1, h2]
    · by_cases h3 : p ≥ (0.4 : ℝ)
      · simp [h1, h2, h3]
      · simp [h1, h2, h3]

/-- Claim C3: `classify` returns `critical` iff `p ≥ max(t, 0.9)`,
otherwise `high` iff `p ≥ t`, otherwise `medium` iff `p ≥ 0.4`,
otherwise `low` — bands inclusive on their lower bounds, mutually
exclusive and exhaustive; with the default threshold `t = 0.7`:
0.95 is critical, 0.75 high, 0.5 medium, 0.1 low. -/
theorem classify_bands (t p : ℝ) :
    (classify t p = "critical" ↔ p ≥ max t 0.9) ∧
    (classify t p = "high" ↔ ¬p ≥ max t 0.9 ∧ p ≥ t) ∧
    (classify t p = "medium" ↔ ¬p ≥ max t 0.9 ∧ ¬p ≥ t ∧ p ≥ 0.4) ∧
    (classify t p = "low" ↔ ¬p ≥ max t 0.9 ∧ ¬p ≥ t ∧ ¬p ≥ 0.4) ∧
    classify 0.7 0.95 = "critical" ∧ classify 0.7 0.75 = "high" ∧
    classify 0.7 0.5 = "medium" ∧ classify 0.7 0.1 = "low" := by
  have hmax : max (0.7 : ℝ) 0.9 = 0.9 := max_eq_right (by norm_num)
  refine ⟨(classify_iff t p).1, (classify_iff t p).2.1, (classify_iff t p).2.2.1,
    (classify_iff t p).2.2.2, ?_, ?_, ?_, ?_⟩
  · exact (classify_iff 0.7 0.95).1.mpr (by rw [hmax]; norm_num)
  · exact (classify_iff 0.7 0.75).2.1.mpr ⟨by rw [hmax]; norm_num, by norm_num⟩
  · exact (classify_iff 0.7 0.5).2.2.1.mpr ⟨by rw [hmax]; norm_num, by norm_num, by norm_num⟩
  · exact (classify_iff 0.7 0.1).2.2.2.mpr ⟨by rw [hmax]; norm_num, by norm_num, by norm_num⟩

/-- Claim C4, counterexample: the fallback artifact built on load
failure does NOT lack an anomaly detector — `iso` is an (unfitted)
`IsolationForest`, i.e. present. -/
theorem load_default_has_detector_cex :
    (FraudModelM.load Option.none).iso.isSome = true ∧
    ¬(FraudModelM.load Option.none).iso = Option.none := by
  exact ⟨rfl, fun h => Option.noConfusion h⟩

/-- Claim C4 (amended): a failed load yields the default artifact —
no scaler, an unfitted classifier whose probability call fails (so the
scorer substitutes the default probability 0.5) and an unfitted
anomaly detector whose scoring call fails (so no blending occurs) —
and scoring any extractable transaction with it still returns the
well-formed pair `{risk: 0.5, level: "medium"}` (with the default
threshold 0.7). -/
theorem load_default_degraded :
    FraudModelM.load Option.none = defaultModel ∧
    defaultModel.scaler = Option.none ∧
    (∀ X : List ℚ, defaultModel.clfP X = 0.5) ∧
    (∀ X : List ℚ, defaultModel.scoreX X = 0.5) ∧
    (∀ tx now, (extractFeaturesH tx now).isOk = true →
      processTx defaultModel defaultThreshold tx now = Except.ok (0.5, "medium")) := by
  have hclf : ∀ X : List ℚ, defaultModel.clfP X = 0.5 := fun _ => rfl
  have hsX : ∀ X : List ℚ, defaultModel.scoreX X = 0.5 := by
    intro X
    show clamp01 (0.5 : ℝ) = 0.5
    exact clamp01_of_mem (by norm_num) (by norm_num)
  have hmed : classify defaultThreshold 0.5 = "medium" := by
    unfold classify defaultThreshold
    rw [max_eq_right (by norm_num : (0.7 : ℝ) ≤ 0.9)]
    rw [if_neg (by norm_num), if_neg (by norm_num), if_pos (by norm_num)]
  refine ⟨rfl, rfl, hclf, hsX, ?_⟩
  intro tx now h
  cases hfe : extractFeaturesH tx now with
  | error e =>
    rw [hfe] at h
    exact Bool.noConfusion h
  | ok f =>
    have hstep : processTx defaultModel defaultThreshold tx now =
        Except.ok (defaultModel.scoreX (featureCols.map (featGet f)),
          classify defaultThreshold (defaultModel.scoreX (featureCols.map (featGet f)))) := by
      unfold processTx FraudModelM.score FraudModelM.featuresX
      rw [hfe]
      rfl
    rw [hstep, hsX, hmed]

/-- Witness for C4: scoring the empty record with the fallback
artifact returns `{risk: 0.5, level: "medium"}`. -/
theorem load_default_degraded_w :
    processTx defaultModel defaultThreshold ({} : Tx) 0 = Except.ok (0.5, "medium") :=
  load_default_degraded.2.2.2.2 {} 0 rfl

/-- Witness for C3: the band characterization instantiated at the
default threshold gives the documented examples. -/
theorem classify_bands_w :
    classify 0.7 0.95 = "critical" ∧ classify 0.7 0.5 = "medium" :=
  ⟨(classify_bands 0.7 0.95).2.2.2.2.1, (classify_bands 0.7 0.5).2.2.2.2.2.2.1⟩

/-- Witness for C5: the mirroring relation instantiated on a concrete
record. -/
theorem mirrored_modules_w :
    extractFeaturesH txRetryFalse 0 =
      Except.map (fun f => { f with is_retry := isRetryH txRetryFalse })
        (extractFeaturesU txRetryFalse 0) :=
  mirrored_modules txRetryFalse 0

/-- Witness for C6: the underscored rule instantiated at the exact
string `"true"` yields 1. -/
theorem is_retry_semantics_w :
    isRetryU { retry := Option.some (PyVal.str "true") } = 1 :=
  (is_retry_semantics (PyVal.str "true")).1.mpr (Or.inr (Or.inr (Or.inl rfl)))

/-- Witness for C8: loading a concrete serialized artifact returns it
verbatim, unvalidated. -/
theorem artifact_save_no_order_w :
    FraudModelM.load (Option.some defaultModel) = defaultModel :=
  artifact_save_no_order.2.2 defaultModel

/-- Witness for C10: the falsy-timestamp equivalence instantiated at a
concrete wall-clock value. -/
theorem ts_falsy_uses_wallclock_w :
    extractFeaturesU txTsZero 7 = extractFeaturesU ({} : Tx) 7 :=
  ts_falsy_uses_wallclock.1 7

end StacksFraud
